import Mathlib

/-!
Verification of the news-ingestion routine of the sentiments-stocks
repository (notebook `data_ingestion.ipynb`).

The notebook defines a single function:

  def fetch_stock_news(ticker, hours_back=1, page=1, page_size=50):
      now = datetime.now()
      params = {
          "q": f"{ticker}",
          "from": (now - timedelta(hours=hours_back)).isoformat(),
          "to": now.isoformat(),
          "language": "en",
          "sortBy": "relevancy",
          "page": page,
          "pageSize": page_size,
          "apiKey": NEWS_API_KEY,
      }
      resp = requests.get("https://newsapi.org/v2/everything", params=params)
      resp.raise_for_status()
      print(resp.json())
      return resp.json()["articles"]

with `NEWS_API_KEY = os.getenv('NEWS_API_KEY')` read at module level
(`None` when the variable is absent).

The shallow embedding below models the ambient effects explicitly:
the clock read `datetime.now()` and the HTTP round trip are supplied by
an `Env`, and the function returns, besides its result, the trace of
HTTP requests it issued and the trace of values it printed.  Timestamps
are integers (seconds); `timedelta(hours=h)` is `h * 3600` seconds; the
ISO-8601 rendering of the timestamps is not modelled, only the underlying
instants.  JSON bodies arrive already parsed as an `Option Json`
(`none` models a body that `resp.json()` fails to decode).
-/

namespace SentimentsStocks

/-- JSON values, as returned by `resp.json()`. -/
inductive Json where
  | null : Json
  | str : String → Json
  | num : Int → Json
  | bool : Bool → Json
  | arr : List Json → Json
  | obj : List (String × Json) → Json

/-- Errors the Python code can raise inside `fetch_stock_news`:
`httpError` is `requests.HTTPError` from `resp.raise_for_status()`
(it carries the response, hence status code and body text);
`jsonDecodeError` is `resp.json()` failing on a non-JSON body;
`keyError` is the dict subscript `resp.json()["articles"]` on a dict
missing the key; `typeError` is that subscript on a non-dict value. -/
inductive FetchError where
  | httpError (status : Nat) (body : String)
  | jsonDecodeError : FetchError
  | keyError (key : String)
  | typeError : FetchError

/-- The spec groups `jsonDecodeError`, `keyError` and `typeError` under
its `ParseError` taxon ("response body not valid JSON or missing
expected fields"); `httpError` is its `UpstreamRequestError`. -/
def FetchError.isParseError : FetchError → Bool
  | FetchError.httpError _ _ => false
  | FetchError.jsonDecodeError => true
  | FetchError.keyError _ => true
  | FetchError.typeError => true

/-- Python dict subscript `j[key]` on a parsed JSON value: a value on a
dict that has the key, `KeyError` on a dict that lacks it, `TypeError`
on any non-dict. -/
def Json.dictGet : Json → String → Except FetchError Json
  | Json.obj fields, key =>
      match fields.lookup key with
      | some v => Except.ok v
      | none => Except.error (FetchError.keyError key)
  | _, _ => Except.error FetchError.typeError

/-- The query parameters of the request, exactly the keys of the
`params` dict built by `fetch_stock_news` (the Python keys `"from"` and
`"to"` are spelled `fromTime` / `toTime` here since `from` is a Lean
keyword; they hold the instants whose `isoformat()` the code sends).
`apiKey` is an `Option` because `os.getenv` yields `None` when
`NEWS_API_KEY` is absent. -/
structure QueryParams where
  q : String
  fromTime : Int
  toTime : Int
  language : String
  sortBy : String
  page : Int
  pageSize : Int
  apiKey : Option String
deriving DecidableEq

/-- One outbound HTTP call as issued by `requests.get(url, params=params)`. -/
structure HttpRequest where
  method : String
  url : String
  params : QueryParams
deriving DecidableEq

/-- An upstream HTTP response: its status code, its raw body text, and
the result of parsing the body as JSON (`none` when the body is not
valid JSON, in which case `resp.json()` raises). -/
structure Response where
  statusCode : Nat
  text : String
  jsonBody : Option Json

/-- The ambient world of one call: the value `datetime.now()` returns
(read once at the top of the function) and the stubbed upstream that
answers the HTTP request. -/
structure Env where
  now : Int
  respond : HttpRequest → Response

/-- What one invocation of `fetch_stock_news` did: its result (the value
of `resp.json()["articles"]`, or the exception that escaped), the trace
of HTTP requests it issued, and the trace of values it printed to
standard output, in order.  The `print` in the code executes before the
`return`, so on success the printed body precedes the returned value. -/
structure FetchOutcome where
  result : Except FetchError Json
  requests : List HttpRequest
  stdout : List Json

/-- `Response.raise_for_status` of the `requests` library raises
`HTTPError` exactly for status codes in the client-error range
`[400, 500)` or the server-error range `[500, 600)`. -/
def raiseForStatus (code : Nat) : Bool :=
  (400 ≤ code && code < 500) || (500 ≤ code && code < 600)

/-- The single request `fetch_stock_news` constructs: a GET to
`https://newsapi.org/v2/everything` with the `params` dict of the
source, where `now` is the one clock read and the window is
`[now - hours_back hours, now]`. -/
def fetchRequest (env : Env) (NEWS_API_KEY : Option String) (ticker : String)
    (hours_back : Int) (page : Int) (page_size : Int) : HttpRequest :=
  let now := env.now
  { method := "GET"
    url := "https://newsapi.org/v2/everything"
    params :=
      { q := ticker
        fromTime := now - hours_back * 3600
        toTime := now
        language := "en"
        sortBy := "relevancy"
        page := page
        pageSize := page_size
        apiKey := NEWS_API_KEY } }

/-- `fetch_stock_news(ticker, hours_back=1, page=1, page_size=50)` of
`data_ingestion.ipynb`, step for step: read the clock once, build the
params, issue one GET, `raise_for_status`, `print(resp.json())`, return
`resp.json()["articles"]`.  Every branch records the single request;
the parsed body is printed exactly when `resp.json()` succeeds after a
non-raising status, even if the subsequent `["articles"]` subscript
raises. -/
def fetch_stock_news (env : Env) (NEWS_API_KEY : Option String) (ticker : String)
    (hours_back : Int := 1) (page : Int := 1) (page_size : Int := 50) :
    FetchOutcome :=
  let req := fetchRequest env NEWS_API_KEY ticker hours_back page page_size
  let resp := env.respond req
  if raiseForStatus resp.statusCode then
    { result := Except.error (FetchError.httpError resp.statusCode resp.text)
      requests := [req]
      stdout := [] }
  else
    match resp.jsonBody with
    | none =>
        { result := Except.error FetchError.jsonDecodeError
          requests := [req]
          stdout := [] }
    | some j =>
        { result := Json.dictGet j "articles"
          requests := [req]
          stdout := [j] }

/-- First article of the captured sample response in the notebook. -/
def sampleArticle1 : Json :=
  Json.obj
    [("source", Json.obj [("id", Json.null), ("name", Json.str "Quartz India")]),
     ("author", Json.str "Kevin Williams"),
     ("title", Json.str "Tesla rival Xiaomi shows off its new SUV in Beijing"),
     ("description", Json.str "Elon Musk’s beleaguered Tesla (TSLA) is fending off yet another competitive EV entry in China.Read more..."),
     ("url", Json.str "https://qz.com/telsa-xiaomi-ev-suv-yu7-1851782952"),
     ("urlToImage", Json.str "https://i.kinja-img.com/image/upload/c_fill,h_675,pg_1,q_80,w_1200/8c7c3f41dbe47e8693d07378a537891d.jpg"),
     ("publishedAt", Json.str "2025-05-29T17:31:15Z"),
     ("content", Json.str "In This Story\r\nElon Musks beleaguered Tesla (TSLA) is fending off yet another competitive EV entry in China.\r\n Chinese electronics giant Xiaomi launched the YU7 SUV at 13 of its Beijing showrooms thi… [+1744 chars]")]

/-- Second article of the captured sample response. -/
def sampleArticle2 : Json :=
  Json.obj
    [("source", Json.obj [("id", Json.null), ("name", Json.str "Yahoo Entertainment")]),
     ("author", Json.str "Ali Ahmed"),
     ("title", Json.str "TD Cowen Maintains Buy Rating on Tesla (TSLA)"),
     ("description", Json.str "On Tuesday, May 27, TD Cowen analysts maintained a “Buy” rating with a price target of $330 for Tesla, Inc. (NASDAQ:TSLA). The analysts highlighted the..."),
     ("url", Json.str "https://finance.yahoo.com/news/td-cowen-maintains-buy-rating-172221555.html"),
     ("urlToImage", Json.str "https://s.yimg.com/ny/api/res/1.2/yW5JtOY4YQMatL7TyPD6iw--/YXBwaWQ9aGlnaGxhbmRlcjt3PTEyMDA7aD0xMjAw/https://media.zenfs.com/en/insidermonkey.com/d60200c9c3fe46563f2c514bb66853e7"),
     ("publishedAt", Json.str "2025-05-29T17:22:21Z"),
     ("content", Json.str "On Tuesday, May 27, TD Cowen analysts maintained a Buy rating with a price target of $330 for Tesla, Inc. (NASDAQ:TSLA). The analysts highlighted the companys autonomous vehicle (AV) features, which … [+1276 chars]")]

/-- Third article of the captured sample response. -/
def sampleArticle3 : Json :=
  Json.obj
    [("source", Json.obj [("id", Json.null), ("name", Json.str "Biztoc.com")]),
     ("author", Json.str "finance.yahoo.com"),
     ("title", Json.str "TD Cowen Maintains Buy Rating on Tesla (TSLA)"),
     ("description", Json.str "In This Article:\nOn Tuesday, May 27, TD Cowen analysts maintained a “Buy” rating with a price target of $330 for Tesla, Inc. (NASDAQ:TSLA). The analysts highlighted the company’s autonomous vehicle (AV) features, which coincide with TD Cowen’s thesis regardin…"),
     ("url", Json.str "https://biztoc.com/x/54c357edbe3ddf04"),
     ("urlToImage", Json.str "https://biztoc.com/cdn/54c357edbe3ddf04_s.webp"),
     ("publishedAt", Json.str "2025-05-29T17:31:15Z"),
     ("content", Json.str "In This Article:On Tuesday, May 27, TD Cowen analysts maintained a Buy rating with a price target of $330 for Tesla, Inc. (NASDAQ:TSLA). The analysts highlighted the companys autonomous vehicle (AV) … [+140 chars]")]

/-- Fourth article of the captured sample response. -/
def sampleArticle4 : Json :=
  Json.obj
    [("source", Json.obj [("id", Json.null), ("name", Json.str "Biztoc.com")]),
     ("author", Json.str "teslarati.com"),
     ("title", Json.str "Tesla analyst’s firm has sold its entire TSLA position: Here’s why"),
     ("description", Json.str "Tesla analyst Gary Black of The Future Fund revealed today that his firm has sold its entire $TSLA holding, marking the first time since 2021 that it has not had a position in the company’s stock.\nBlack has been a skeptic of the company and relatively pessimi…"),
     ("url", Json.str "https://biztoc.com/x/a6a6563384a07189"),
     ("urlToImage", Json.str "https://biztoc.com/cdn/a6a6563384a07189_s.webp"),
     ("publishedAt", Json.str "2025-05-29T15:38:56Z"),
     ("content", Json.str "Tesla analyst Gary Black of The Future Fund revealed today that his firm has sold its entire $TSLA holding, marking the first time since 2021 that it has not had a position in the companys stock.Blac… [+150 chars]")]

/-- Fifth article of the captured sample response. -/
def sampleArticle5 : Json :=
  Json.obj
    [("source", Json.obj [("id", Json.null), ("name", Json.str "Biztoc.com")]),
     ("author", Json.str "investopedia.com"),
     ("title", Json.str "5 Things to Know Before the Stock Market Opens"),
     ("description", Json.str "U.S. stock futures are pointing sharply higher after a federal court struck down President Donald Trump\x27s \"reciprocal\" tariffs; Nvidia (NVDA) shares are jumping in premarket trading after the chipmaker posted record revenue that tops analysts\x27 estimates; Tesl…"),
     ("url", Json.str "https://biztoc.com/x/556475519d87d05d"),
     ("urlToImage", Json.str "https://biztoc.com/cdn/556475519d87d05d_s.webp"),
     ("publishedAt", Json.str "2025-05-29T19:00:05Z"),
     ("content", Json.str "U.S. stock futures are pointing sharply higher after a federal court struck down President Donald Trump\x27s \"reciprocal\" tariffs; Nvidia (NVDA) shares are jumping in premarket trading after the chipmak… [+156 chars]")]

/-- The five articles of the captured sample, in response order. -/
def sampleArticles : List Json :=
  [sampleArticle1, sampleArticle2, sampleArticle3, sampleArticle4, sampleArticle5]

/-- The captured sample body:
`{'status': 'ok', 'totalResults': 5, 'articles': [...]}`. -/
def sampleBody : Json :=
  Json.obj
    [("status", Json.str "ok"),
     ("totalResults", Json.num 5),
     ("articles", Json.arr sampleArticles)]

/-- Stubbed upstream answering every request with HTTP 200 and the
captured sample body (the raw text is read only on the error path,
which this stub never takes). -/
def envSample : Env :=
  { now := 1748541600
    respond := fun _ =>
      { statusCode := 200, text := "", jsonBody := some sampleBody } }

/-- Stubbed upstream answering every request with HTTP 429. -/
def env429 : Env :=
  { now := 1748541600
    respond := fun _ =>
      { statusCode := 429, text := "rate limited", jsonBody := none } }

/-- Stubbed upstream answering every request with HTTP 401, as the real
service does when the `apiKey` parameter is missing. -/
def env401 : Env :=
  { now := 1748541600
    respond := fun _ =>
      { statusCode := 401, text := "unauthorized", jsonBody := none } }

/-- Stubbed upstream answering HTTP 200 with a body that is not valid
JSON (`resp.json()` raises on it). -/
def envBadJson : Env :=
  { now := 1748541600
    respond := fun _ =>
      { statusCode := 200, text := "<html>not json</html>", jsonBody := none } }

/-- `raise_for_status` fires on every status in `[400, 600)`. -/
theorem raiseForStatus_true {code : Nat} (h4 : 400 ≤ code) (h6 : code < 600) :
    raiseForStatus code = true := by
  simp only [raiseForStatus, Bool.or_eq_true, Bool.and_eq_true, decide_eq_true_eq]
  omega

/-- `raise_for_status` is silent on every status below 400. -/
theorem raiseForStatus_false {code : Nat} (h : code < 400) :
    raiseForStatus code = false := by
  simp only [raiseForStatus, Bool.or_eq_false_iff, Bool.and_eq_false_iff,
    decide_eq_false_iff_not, not_le, not_lt]
  omega

/-- Every branch of `fetch_stock_news` records exactly the one request
it issued: the trace is the singleton of `fetchRequest`. -/
theorem fetch_requests_single (env : Env) (key : Option String) (ticker : String)
    (hb p ps : Int) :
    (fetch_stock_news env key ticker hb p ps).requests
      = [fetchRequest env key ticker hb p ps] := by
  simp only [fetch_stock_news]
  split
  · rfl
  · split <;> rfl

/-- The dict subscript fails only with `KeyError` or `TypeError`, both
in the spec's `ParseError` taxon. -/
theorem dictGet_isParseError {j : Json} {key : String} {e : FetchError}
    (h : Json.dictGet j key = Except.error e) : e.isParseError = true := by
  cases j <;> simp only [Json.dictGet] at h
  case obj fields =>
    cases hl : fields.lookup key <;> rw [hl] at h
    · injection h with h1
      subst h1
      rfl
    · cases h
  all_goals
    injection h with h1
  all_goals
    subst h1
  all_goals
    rfl

/-- C1: on a 200 response whose parsed body is a JSON object of the
form containing a `status` of `ok` and an `articles` key bound to a
list, `fetch_stock_news` returns exactly that list (hence the same
number of article records, in the same order). -/
theorem fetch_success_returns_articles
    (env : Env) (key : Option String) (ticker : String) (hb p ps : Int)
    (j : Json) (xs : List Json)
    (hstatus : (env.respond (fetchRequest env key ticker hb p ps)).statusCode = 200)
    (hjson : (env.respond (fetchRequest env key ticker hb p ps)).jsonBody = some j)
    (_hok : Json.dictGet j "status" = Except.ok (Json.str "ok"))
    (harticles : Json.dictGet j "articles" = Except.ok (Json.arr xs)) :
    (fetch_stock_news env key ticker hb p ps).result = Except.ok (Json.arr xs) := by
  have hr : raiseForStatus (env.respond (fetchRequest env key ticker hb p ps)).statusCode
      = false := by rw [hstatus]; decide
  simp only [fetch_stock_news, hr, Bool.false_eq_true, if_false, hjson]
  exact harticles

/-- C1, witness: the theorem applied to the captured sample stub. -/
theorem fetch_success_returns_articles_witness :
    (fetch_stock_news envSample (some "key-0") "AAPL" 2 1 10).result
      = Except.ok (Json.arr sampleArticles) :=
  fetch_success_returns_articles envSample (some "key-0") "AAPL" 2 1 10
    sampleBody sampleArticles rfl rfl rfl rfl

/-- C2: with `hours_back > 0` the computed `from` instant strictly
precedes the computed `to` instant, their difference is exactly
`hours_back` hours, `to` is the single clock read, and `from` is that
read minus `hours_back` hours. -/
theorem fetch_window_from_precedes_to
    (env : Env) (key : Option String) (ticker : String) (hb p ps : Int)
    (hpos : 0 < hb) :
    (fetchRequest env key ticker hb p ps).params.fromTime
        < (fetchRequest env key ticker hb p ps).params.toTime
    ∧ (fetchRequest env key ticker hb p ps).params.toTime
        - (fetchRequest env key ticker hb p ps).params.fromTime = hb * 3600
    ∧ (fetchRequest env key ticker hb p ps).params.toTime = env.now
    ∧ (fetchRequest env key ticker hb p ps).params.fromTime
        = env.now - hb * 3600 := by
  refine ⟨?_, ?_, rfl, rfl⟩ <;> simp only [fetchRequest] <;> omega

/-- C2, witness: the window bounds at `hours_back = 24`. -/
theorem fetch_window_from_precedes_to_witness :
    (fetchRequest envSample (some "key-0") "TSLA" 24 1 5).params.fromTime
        < (fetchRequest envSample (some "key-0") "TSLA" 24 1 5).params.toTime
    ∧ (fetchRequest envSample (some "key-0") "TSLA" 24 1 5).params.toTime
        - (fetchRequest envSample (some "key-0") "TSLA" 24 1 5).params.fromTime
        = 24 * 3600
    ∧ (fetchRequest envSample (some "key-0") "TSLA" 24 1 5).params.toTime
        = envSample.now
    ∧ (fetchRequest envSample (some "key-0") "TSLA" 24 1 5).params.fromTime
        = envSample.now - 24 * 3600 :=
  fetch_window_from_precedes_to envSample (some "key-0") "TSLA" 24 1 5 (by norm_num)

/-- C3: on a response whose status is in the error range `[400, 600)`
(e.g. 429 or 500), `fetch_stock_news` raises the `HTTPError` of
`raise_for_status` — the spec's `UpstreamRequestError` — carrying that
status code and the response body, and its request trace is still the
single original request: nothing further is sent. -/
theorem fetch_error_status_raises
    (env : Env) (key : Option String) (ticker : String) (hb p ps : Int)
    (h4 : 400 ≤ (env.respond (fetchRequest env key ticker hb p ps)).statusCode)
    (h6 : (env.respond (fetchRequest env key ticker hb p ps)).statusCode < 600) :
    (fetch_stock_news env key ticker hb p ps).result
      = Except.error
          (FetchError.httpError
            (env.respond (fetchRequest env key ticker hb p ps)).statusCode
            (env.respond (fetchRequest env key ticker hb p ps)).text)
    ∧ (fetch_stock_news env key ticker hb p ps).requests
        = [fetchRequest env key ticker hb p ps] := by
  have hr := raiseForStatus_true h4 h6
  constructor <;> simp only [fetch_stock_news, hr, if_true]

/-- C3, witness: the theorem applied to a stub answering HTTP 429. -/
theorem fetch_error_status_raises_witness :
    (fetch_stock_news env429 (some "key-0") "TSLA" 24 1 5).result
      = Except.error
          (FetchError.httpError
            (env429.respond (fetchRequest env429 (some "key-0") "TSLA" 24 1 5)).statusCode
            (env429.respond (fetchRequest env429 (some "key-0") "TSLA" 24 1 5)).text)
    ∧ (fetch_stock_news env429 (some "key-0") "TSLA" 24 1 5).requests
        = [fetchRequest env429 (some "key-0") "TSLA" 24 1 5] :=
  fetch_error_status_raises env429 (some "key-0") "TSLA" 24 1 5
    (by decide) (by decide)

/-- C4, counterexample: with `NEWS_API_KEY` absent (`none`, as
`os.getenv` yields) the code does NOT fail before the network call:
against a stub answering 401 it still issues its one HTTP request —
the request trace is nonempty — and the only failure is the
`HTTPError` coming back from the wire, not a pre-flight
`ConfigurationError` (no such check or error exists in the code). -/
theorem fetch_missing_key_counterexample :
    (fetch_stock_news env401 none "TSLA" 24 1 5).requests
      = [fetchRequest env401 none "TSLA" 24 1 5]
    ∧ (fetch_stock_news env401 none "TSLA" 24 1 5).result
      = Except.error (FetchError.httpError 401 "unauthorized") :=
  ⟨rfl, rfl⟩

/-- C4, amended: if `NEWS_API_KEY` is absent, `fetch_stock_news` raises
nothing before the network call; it issues its single HTTP GET anyway,
with the `apiKey` entry of the params equal to `None`. -/
theorem fetch_missing_key_sends_request
    (env : Env) (ticker : String) (hb p ps : Int) :
    (fetch_stock_news env none ticker hb p ps).requests
      = [fetchRequest env none ticker hb p ps]
    ∧ (fetchRequest env none ticker hb p ps).params.apiKey = none :=
  ⟨fetch_requests_single env none ticker hb p ps, rfl⟩

/-- C5: every call issues exactly one HTTP GET, to
`https://newsapi.org/v2/everything`, whose query parameters are exactly
the record `{q, from, to, language, sortBy, page, pageSize, apiKey}`
with `q` the ticker, `language` fixed to `en`, `sortBy` fixed to
`relevancy`, and `page`/`pageSize` the corresponding arguments. -/
theorem fetch_issues_single_get_with_exact_params
    (env : Env) (key : Option String) (ticker : String) (hb p ps : Int) :
    (fetch_stock_news env key ticker hb p ps).requests
      = [fetchRequest env key ticker hb p ps]
    ∧ (fetchRequest env key ticker hb p ps).method = "GET"
    ∧ (fetchRequest env key ticker hb p ps).url = "https://newsapi.org/v2/everything"
    ∧ (fetchRequest env key ticker hb p ps).params
        = { q := ticker
            fromTime := env.now - hb * 3600
            toTime := env.now
            language := "en"
            sortBy := "relevancy"
            page := p
            pageSize := ps
            apiKey := key } :=
  ⟨fetch_requests_single env key ticker hb p ps, rfl, rfl, rfl⟩

/-- C6: on a non-raising status, if the body is not valid JSON or the
parsed JSON lacks the `articles` key (or is not a dict), the call fails
with an error in the spec's `ParseError` taxon. -/
theorem fetch_parse_failure_raises_parseError
    (env : Env) (key : Option String) (ticker : String) (hb p ps : Int)
    (hok : (env.respond (fetchRequest env key ticker hb p ps)).statusCode < 400)
    (hbad : (env.respond (fetchRequest env key ticker hb p ps)).jsonBody = none
        ∨ ∃ j e, (env.respond (fetchRequest env key ticker hb p ps)).jsonBody = some j
            ∧ Json.dictGet j "articles" = Except.error e) :
    ∃ e, (fetch_stock_news env key ticker hb p ps).result = Except.error e
        ∧ e.isParseError = true := by
  have hr := raiseForStatus_false hok
  rcases hbad with hnone | ⟨j, e, hj, he⟩
  · refine ⟨FetchError.jsonDecodeError, ?_, rfl⟩
    simp only [fetch_stock_news, hr, Bool.false_eq_true, if_false, hnone]
  · refine ⟨e, ?_, dictGet_isParseError he⟩
    simp only [fetch_stock_news, hr, Bool.false_eq_true, if_false, hj]
    exact he

/-- C6, witness: the theorem applied to a stub answering 200 with a
body that is not valid JSON. -/
theorem fetch_parse_failure_raises_parseError_witness :
    ∃ e, (fetch_stock_news envBadJson (some "key-0") "TSLA" 24 1 5).result
        = Except.error e
      ∧ e.isParseError = true :=
  fetch_parse_failure_raises_parseError envBadJson (some "key-0") "TSLA" 24 1 5
    (by decide) (Or.inl rfl)

/-- C7: on the captured sample stub with ticker `TSLA`,
`hours_back = 24`, `page = 1`, `page_size = 5`, the call returns exactly
the five sample articles, the first of which is titled "Tesla rival
Xiaomi shows off its new SUV in Beijing", sourced "Quartz India",
published "2025-05-29T17:31:15Z". -/
theorem fetch_sample_scenario_tsla :
    (fetch_stock_news envSample (some "test-key") "TSLA" 24 1 5).result
      = Except.ok (Json.arr sampleArticles)
    ∧ sampleArticles.length = 5
    ∧ sampleArticles.head? = some sampleArticle1
    ∧ Json.dictGet sampleArticle1 "title"
        = Except.ok (Json.str "Tesla rival Xiaomi shows off its new SUV in Beijing")
    ∧ Except.bind (Json.dictGet sampleArticle1 "source")
        (fun s => Json.dictGet s "name")
        = Except.ok (Json.str "Quartz India")
    ∧ Json.dictGet sampleArticle1 "publishedAt"
        = Except.ok (Json.str "2025-05-29T17:31:15Z") :=
  ⟨rfl, rfl, rfl, rfl, rfl, rfl⟩

/-- C8: every invocation records at most one outbound request in its
trace, whatever the arguments and whatever the upstream answers: no
retry, no second page, no cache. -/
theorem fetch_at_most_one_network_call
    (env : Env) (key : Option String) (ticker : String) (hb p ps : Int) :
    (fetch_stock_news env key ticker hb p ps).requests.length ≤ 1 := by
  rw [fetch_requests_single]
  exact Nat.le_refl 1

/-- C9: whenever the status does not raise and the body parses, the
whole parsed body is printed to standard output (the `print` precedes
the `return` in the code, so this happens before the articles list is
returned); in particular the output trace is nonempty, so the function
is not pure with respect to output. -/
theorem fetch_prints_parsed_body
    (env : Env) (key : Option String) (ticker : String) (hb p ps : Int) (j : Json)
    (hok : (env.respond (fetchRequest env key ticker hb p ps)).statusCode < 400)
    (hjson : (env.respond (fetchRequest env key ticker hb p ps)).jsonBody = some j) :
    (fetch_stock_news env key ticker hb p ps).stdout = [j]
    ∧ (fetch_stock_news env key ticker hb p ps).stdout ≠ [] := by
  have hr := raiseForStatus_false hok
  have h1 : (fetch_stock_news env key ticker hb p ps).stdout = [j] := by
    simp only [fetch_stock_news, hr, Bool.false_eq_true, if_false, hjson]
  refine ⟨h1, ?_⟩
  rw [h1]
  simp

/-- C9, witness: the theorem applied to the captured sample stub. -/
theorem fetch_prints_parsed_body_witness :
    (fetch_stock_news envSample (some "key-0") "MSFT" 3 2 20).stdout = [sampleBody]
    ∧ (fetch_stock_news envSample (some "key-0") "MSFT" 3 2 20).stdout ≠ [] :=
  fetch_prints_parsed_body envSample (some "key-0") "MSFT" 3 2 20 sampleBody
    (by decide) rfl

/-- C10: omitting the optional arguments means `hours_back = 1`,
`page = 1`, `page_size = 50`: a ticker-only call queries a one-hour
lookback window for the first page of up to 50 results. -/
theorem fetch_default_arguments (env : Env) (key : Option String) (ticker : String) :
    fetch_stock_news env key ticker = fetch_stock_news env key ticker 1 1 50
    ∧ (fetchRequest env key ticker 1 1 50).params.fromTime = env.now - 1 * 3600
    ∧ (fetchRequest env key ticker 1 1 50).params.toTime = env.now
    ∧ (fetchRequest env key ticker 1 1 50).params.page = 1
    ∧ (fetchRequest env key ticker 1 1 50).params.pageSize = 50 :=
  ⟨rfl, rfl, rfl, rfl, rfl⟩

end SentimentsStocks
